import Mathlib

/-!
Shallow embedding of the VINSA 1060 Plus tablet driver (Rust sources under
src/driver/src) and proofs about the claims of its specification.

Modelling conventions:
- Bytes are `Nat` values (callers keep them below 256); u16 results are `Nat`.
- Rust `i32` values are `Int`; Rust integer division truncates toward zero,
  modelled with `Int.tdiv`.
- Rust `f32` state (smoothed coordinates, pressure product) is modelled with
  exact rational arithmetic `ℚ`; the Rust `as i32` float-to-int cast saturates
  and truncates toward zero, modelled by `f32_as_i32`.
- Event emission to the virtual uinput devices is modelled as lists of
  `Event` values in emission order; the end-of-batch SYN_REPORT marker is
  `Event.syn`.
-/

namespace VinsaDriver

/-- Output key codes used by the driver's three binding tables, mirroring the
`evdev::Key` constants named in `virtual_device.rs`. -/
inductive Key
  | KEY_MUTE | KEY_VOLUMEDOWN | KEY_VOLUMEUP | KEY_PLAYER | KEY_PLAYPAUSE
  | KEY_PREVIOUSSONG | KEY_NEXTSONG | KEY_HOME | KEY_CALC | KEY_LEFTMETA
  | KEY_D | KEY_TAB | KEY_SPACE | KEY_LEFTALT | KEY_LEFTCTRL | KEY_PAGEUP
  | KEY_PAGEDOWN | KEY_LEFTBRACE | KEY_KPMINUS | KEY_KPPLUS | KEY_ESC
  | KEY_B | KEY_RIGHTBRACE | BTN_STYLUS | BTN_STYLUS2 | BTN_TOOL_PEN
  | BTN_TOUCH
  deriving DecidableEq, Repr

/-- Absolute axes of the virtual pen device. -/
inductive Axis
  | ABS_X | ABS_Y | ABS_PRESSURE
  deriving DecidableEq, Repr

/-- One event written to a virtual device: a key event with a state value, an
absolute-axis event, or the end-of-batch SYN_REPORT flush. -/
inductive Event
  | key (k : Key) (state : Int)
  | abs (a : Axis) (value : Int)
  | syn
  deriving DecidableEq, Repr

/-- Raw report buffer, `RawDataReader` in `virtual_device.rs`. The real buffer
is a `Vec<u8>` of 64 bytes; here a list of byte values. -/
structure RawDataReader where
  data : List Nat
  deriving Repr

namespace RawDataReader

def X_AXIS_HIGH : Nat := 1
def X_AXIS_LOW : Nat := 2
def Y_AXIS_HIGH : Nat := 3
def Y_AXIS_LOW : Nat := 4
def PRESSURE_HIGH : Nat := 5
def PRESSURE_LOW : Nat := 6
def PEN_BUTTONS : Nat := 9
def TABLET_BUTTONS_HIGH : Nat := 12
def TABLET_BUTTONS_LOW : Nat := 11

/-- Fresh 64-byte zeroed buffer (`RawDataReader::new`). -/
def new : RawDataReader := ⟨List.replicate 64 0⟩

/-- Rust `u16_from_2_u8`: `(high as u16) << 8 | low as u16`. -/
def u16_from_2_u8 (high low : Nat) : Nat :=
  (high <<< 8) ||| low

/-- Rust `i16_from_2_u8`: the u16 combination reinterpreted as a signed i16. -/
def i16_from_2_u8 (high low : Nat) : Int :=
  let u := u16_from_2_u8 high low
  if u < 32768 then (u : Int) else (u : Int) - 65536

/-- Byte access `self.data[i]`; the fixed offsets lie inside the 64-byte
buffer, so the out-of-range default is never taken on real reports. -/
def byte (r : RawDataReader) (i : Nat) : Nat := r.data.getD i 0

/-- Rust `x_axis`: big-endian signed 16-bit X, widened to i32. -/
def x_axis (r : RawDataReader) : Int :=
  i16_from_2_u8 (r.byte X_AXIS_HIGH) (r.byte X_AXIS_LOW)

/-- Rust `y_axis`: big-endian signed 16-bit Y, widened to i32. -/
def y_axis (r : RawDataReader) : Int :=
  i16_from_2_u8 (r.byte Y_AXIS_HIGH) (r.byte Y_AXIS_LOW)

/-- Rust `pressure`: big-endian unsigned 16-bit pressure, widened to i32. -/
def pressure (r : RawDataReader) : Int :=
  (u16_from_2_u8 (r.byte PRESSURE_HIGH) (r.byte PRESSURE_LOW) : Int)

/-- Rust `tablet_buttons_as_binary_flags`: combine bytes 12 and 11 as
`high << 8 | low`, then OR the sentinel `0xcc << 8`; if either offset is not
inside the buffer, substitute `0` for the combination before the OR. -/
def tablet_buttons_as_binary_flags (r : RawDataReader) : Nat :=
  let idx_h := TABLET_BUTTONS_HIGH
  let idx_l := TABLET_BUTTONS_LOW
  if idx_h ≥ r.data.length ∨ idx_l ≥ r.data.length then
    0 ||| (0xcc <<< 8)
  else
    u16_from_2_u8 (r.byte idx_h) (r.byte idx_l) ||| (0xcc <<< 8)

/-- Rust `pen_buttons`: raw byte 9. -/
def pen_buttons (r : RawDataReader) : Nat := r.byte PEN_BUTTONS

end RawDataReader

/-- Configuration snapshot (`AppConfig` in `config.rs`): `pressure_threshold`
is a u16, `sensitivity` an f32 modelled as an exact rational. -/
structure AppConfig where
  pressure_threshold : Nat
  sensitivity : ℚ
  deriving Repr

/-- Default configuration `{510, 5.0}` (`AppConfig::default`). -/
def AppConfig.default : AppConfig := ⟨510, 5⟩

/-- Rust `as i32` cast from f32, on the exact-rational model of the float
value: saturates at the i32 bounds and truncates toward zero. -/
def f32_as_i32 (q : ℚ) : Int :=
  max (-(2 ^ 31)) (min (2 ^ 31 - 1) (Int.tdiv q.num (q.den : Int)))

/-- Rust `as u8` cast from i32: keeps the low 8 bits (value modulo 256 of the
two's-complement pattern). -/
def i32_as_u8 (n : Int) : Nat := (n % 256).toNat

/-- Mutable session state of `DeviceDispatcher` (the virtual device handles
and the config handle are kept outside the state; binding tables are the fixed
default maps below). -/
structure DeviceDispatcher where
  tablet_last_raw_pressed_buttons : Nat
  pen_last_raw_pressed_button : Nat
  last_pressed_media_button : Nat
  was_touching : Bool
  last_x : ℚ
  last_y : ℚ
  media_button_width : Int
  deriving Repr

namespace DeviceDispatcher

def PRESSED : Int := 1
def RELEASED : Int := 0
def HOLD : Int := 2
def MAX_X : Int := 4095
def MAX_Y : Int := 4095
def MAX_PRESSURE : Int := 8191
def RAW_PRESSURE_POINTS : Int := 2000
def MEDIA_BUTTONS_COUNT : Int := 10

/-- Default media-strip binding table (button id 0..9 to key combo). -/
def media_button_id_to_key_code_map : Nat → Option (List Key)
  | 0 => some [.KEY_MUTE]
  | 1 => some [.KEY_VOLUMEDOWN]
  | 2 => some [.KEY_VOLUMEUP]
  | 3 => some [.KEY_PLAYER]
  | 4 => some [.KEY_PLAYPAUSE]
  | 5 => some [.KEY_PREVIOUSSONG]
  | 6 => some [.KEY_NEXTSONG]
  | 7 => some [.KEY_HOME]
  | 8 => some [.KEY_CALC]
  | 9 => some [.KEY_LEFTMETA, .KEY_D]
  | _ => none

/-- Default tablet-button binding table (ids 10 and 11 are absent). -/
def tablet_button_id_to_key_code_map : Nat → Option (List Key)
  | 0 => some [.KEY_TAB]
  | 1 => some [.KEY_SPACE]
  | 2 => some [.KEY_LEFTALT]
  | 3 => some [.KEY_LEFTCTRL]
  | 4 => some [.KEY_PAGEUP]
  | 5 => some [.KEY_PAGEDOWN]
  | 6 => some [.KEY_LEFTBRACE]
  | 7 => some [.KEY_LEFTCTRL, .KEY_KPMINUS]
  | 8 => some [.KEY_LEFTCTRL, .KEY_KPPLUS]
  | 9 => some [.KEY_ESC]
  | 12 => some [.KEY_B]
  | 13 => some [.KEY_RIGHTBRACE]
  | _ => none

/-- Default pen-button binding table (codes 4 and 6). -/
def pen_button_id_to_key_code_map : Nat → Option (List Key)
  | 4 => some [.BTN_STYLUS]
  | 6 => some [.BTN_STYLUS2]
  | _ => none

/-- Initial dispatcher state built by `DeviceDispatcher::new`. -/
def new : DeviceDispatcher where
  tablet_last_raw_pressed_buttons := 0xFFFF
  pen_last_raw_pressed_button := 0
  last_pressed_media_button := 0
  was_touching := false
  last_x := ((Int.tdiv MAX_X 2 : Int) : ℚ)
  last_y := ((Int.tdiv MAX_Y 2 : Int) : ℚ)
  media_button_width := Int.tdiv MAX_X MEDIA_BUTTONS_COUNT

/-- Rust `smooth_coordinates`: adaptive exponential filter. The gain is
picked from the squared jump distance between the previous smoothed point and
the raw target; each axis is updated as `last = last + (target - last) * α`
and the emitted pair is the float state truncated to i32. Returns the updated
state and the emitted `(x, y)`. -/
def smooth_coordinates (d : DeviceDispatcher) (x y : Int) :
    DeviceDispatcher × (Int × Int) :=
  let target_x : ℚ := (x : ℚ)
  let target_y : ℚ := (y : ℚ)
  let dx := target_x - d.last_x
  let dy := target_y - d.last_y
  let dist_sq := dx * dx + dy * dy
  let alpha : ℚ :=
    if dist_sq > 5000 then 95 / 100
    else if dist_sq > 1000 then 6 / 10
    else 3 / 10
  let new_x := d.last_x + (target_x - d.last_x) * alpha
  let new_y := d.last_y + (target_y - d.last_y) * alpha
  ({ d with last_x := new_x, last_y := new_y },
   (f32_as_i32 new_x, f32_as_i32 new_y))

/-- Rust `emit_tablet_key_event` for one button id: active-low edge/hold
detection against the stored previous mask, emission of the bound key combo
followed by one SYN flush on the keyboard device. Returns the emitted events
(state is unchanged here; the mask is stored by `emit_tablet_events`). -/
def emit_tablet_key_event (d : DeviceDispatcher) (i : Nat)
    (raw_button_as_flags : Nat) : List Event :=
  let id_as_binary_mask := 1 <<< i
  let is_pressed := raw_button_as_flags &&& id_as_binary_mask == 0
  let was_pressed := d.tablet_last_raw_pressed_buttons &&& id_as_binary_mask == 0
  let state? : Option Int :=
    match was_pressed, is_pressed with
    | false, true => some PRESSED
    | true, false => some RELEASED
    | true, true => some HOLD
    | _, _ => none
  match state? with
  | none => []
  | some state =>
    match tablet_button_id_to_key_code_map i with
    | none => []
    | some keys => keys.map (fun k => Event.key k state) ++ [Event.syn]

/-- Rust `binary_flags_to_tablet_key_events`: ids 0..13 without 10 and 11,
in order. -/
def binary_flags_to_tablet_key_events (d : DeviceDispatcher)
    (raw_button_as_flags : Nat) : List Event :=
  ((List.range 14).filter (fun i => i ≠ 10 ∧ i ≠ 11)).flatMap
    (fun i => emit_tablet_key_event d i raw_button_as_flags)

/-- Rust `emit_tablet_events`: translate the current mask, then store it as
the previous mask. -/
def emit_tablet_events (d : DeviceDispatcher) (raw_data : RawDataReader) :
    DeviceDispatcher × List Event :=
  let raw_button_as_binary_flags := raw_data.tablet_buttons_as_binary_flags
  let events := binary_flags_to_tablet_key_events d raw_button_as_binary_flags
  ({ d with tablet_last_raw_pressed_buttons := raw_button_as_binary_flags },
   events)

/-- Rust `normalize_pressure`: `val = 2000 - raw`; below or at the configured
threshold the result is 0, otherwise `(val as f32 * sensitivity) as i32`. -/
def normalize_pressure (cfg : AppConfig) (raw_pressure : Int) : Int :=
  let val := RAW_PRESSURE_POINTS - raw_pressure
  if val ≤ (cfg.pressure_threshold : Int) then 0
  else f32_as_i32 ((val : ℚ) * cfg.sensitivity)

/-- Rust `raw_pen_abs_to_pen_abs_events`: inside the multimedia strip nothing
is emitted; otherwise ABS_X (unclamped), ABS_Y clamped to `[0, MAX_Y]`,
ABS_PRESSURE (unclamped) and the BTN_TOOL_PEN presence key. -/
def raw_pen_abs_to_pen_abs_events (x y pressure : Int)
    (is_multimedia_area : Bool) : List Event :=
  if is_multimedia_area then []
  else
    [Event.abs .ABS_X x,
     Event.abs .ABS_Y (max 0 (min MAX_Y y)),
     Event.abs .ABS_PRESSURE pressure,
     Event.key .BTN_TOOL_PEN 1]

/-- Rust `pen_emit_touch`: edge detection on `normalized_pressure > 0`.
Inside the strip a press latches column `x / media_button_width` (u8 cast)
and emits its combo with the edge state; outside the strip any edge first
emits the latched combo RELEASED on the media keyboard and then the
BTN_TOUCH edge on the pen. Returns the updated state and emitted events. -/
def pen_emit_touch (d : DeviceDispatcher) (x : Int)
    (is_multimedia_area : Bool) (normalized_pressure : Int) :
    DeviceDispatcher × List Event :=
  let is_touching : Bool := decide (normalized_pressure > 0)
  let state? : Option Int :=
    match d.was_touching, is_touching with
    | false, true => some PRESSED
    | true, false => some RELEASED
    | _, _ => none
  match state? with
  | none => ({ d with was_touching := is_touching }, [])
  | some state =>
    if is_multimedia_area then
      let latched :=
        if state = PRESSED then i32_as_u8 (Int.tdiv x d.media_button_width)
        else d.last_pressed_media_button
      let events :=
        match media_button_id_to_key_code_map latched with
        | none => []
        | some keys => keys.map (fun k => Event.key k state)
      ({ d with was_touching := is_touching,
                last_pressed_media_button := latched }, events)
    else
      let media_release :=
        match media_button_id_to_key_code_map d.last_pressed_media_button with
        | none => []
        | some keys => keys.map (fun k => Event.key k RELEASED)
      ({ d with was_touching := is_touching },
       media_release ++ [Event.key .BTN_TOUCH state])

/-- Rust `raw_pen_buttons_to_pen_key_events`: the guarded match on
`(previous, current)` raw codes; a selected `(state, id)` emits the combo
bound to `id` in the pen table. -/
def raw_pen_buttons_to_pen_key_events (d : DeviceDispatcher)
    (pen_button : Nat) : List Event :=
  let sel : Option (Int × Nat) :=
    if d.pen_last_raw_pressed_button = 2 ∧ (pen_button = 6 ∨ pen_button = 4)
    then some (PRESSED, pen_button)
    else if (d.pen_last_raw_pressed_button = 6 ∨
             d.pen_last_raw_pressed_button = 4) ∧ pen_button = 2
    then some (RELEASED, d.pen_last_raw_pressed_button)
    else if d.pen_last_raw_pressed_button ≠ 2 ∧
            d.pen_last_raw_pressed_button = pen_button
    then some (HOLD, d.pen_last_raw_pressed_button)
    else none
  match sel with
  | none => []
  | some (state, id) =>
    match pen_button_id_to_key_code_map id with
    | none => []
    | some keys => keys.map (fun k => Event.key k state)

/-- Rust `emit_pen_events`: pen-button translation (storing the raw code),
pressure normalization, smoothing, absolute-axis emission gated by the
multimedia strip, then touch/media edge handling. -/
def emit_pen_events (d : DeviceDispatcher) (cfg : AppConfig)
    (raw_data : RawDataReader) : DeviceDispatcher × List Event :=
  let y_raw := raw_data.y_axis
  let is_multimedia_area := y_raw < 0
  let raw_pen_buttons := raw_data.pen_buttons
  let button_events := raw_pen_buttons_to_pen_key_events d raw_pen_buttons
  let d1 := { d with pen_last_raw_pressed_button := raw_pen_buttons }
  let normalized_pressure := normalize_pressure cfg raw_data.pressure
  let smoothed := smooth_coordinates d1 raw_data.x_axis y_raw
  let abs_events :=
    raw_pen_abs_to_pen_abs_events smoothed.2.1 smoothed.2.2
      normalized_pressure is_multimedia_area
  let touch :=
    pen_emit_touch smoothed.1 smoothed.2.1 is_multimedia_area
      normalized_pressure
  (touch.1, button_events ++ abs_events ++ touch.2)

/-- Events produced for tablet-button id `i` at transition state `state`: the
bound combo followed by the end-of-batch flush, or nothing when unbound. -/
def tablet_combo_events (i : Nat) (state : Int) : List Event :=
  match tablet_button_id_to_key_code_map i with
  | none => []
  | some keys => keys.map (fun k => Event.key k state) ++ [Event.syn]

/-- Events produced for pen-button id `id` at transition state `state`. -/
def pen_combo_events (id : Nat) (state : Int) : List Event :=
  match pen_button_id_to_key_code_map id with
  | none => []
  | some keys => keys.map (fun k => Event.key k state)

/-- Feed a list of already-decoded tablet-button masks through the dispatcher
in order, as `emit_tablet_events` does per sample, collecting all events. -/
def run_tablet_masks (d : DeviceDispatcher) : List Nat →
    DeviceDispatcher × List Event
  | [] => (d, [])
  | m :: rest =>
    let events := binary_flags_to_tablet_key_events d m
    let next := run_tablet_masks
      { d with tablet_last_raw_pressed_buttons := m } rest
    (next.1, events ++ next.2)

/-- State part of one smoothing update. -/
def smooth_step (x y : Int) (d : DeviceDispatcher) : DeviceDispatcher :=
  (smooth_coordinates d x y).1

/-- Iterated smoothing updates with the same raw target. -/
def smooth_iter (x y : Int) (d : DeviceDispatcher) : Nat → DeviceDispatcher
  | 0 => d
  | n + 1 => smooth_iter x y (smooth_step x y d) n

/-- Squared distance from the smoothed position to the raw target. -/
def dist_sq_to (x y : Int) (d : DeviceDispatcher) : ℚ :=
  ((x : ℚ) - d.last_x) ^ 2 + ((y : ℚ) - d.last_y) ^ 2

/-- Rust `dispatch`: pen events then tablet events. -/
def dispatch (d : DeviceDispatcher) (cfg : AppConfig)
    (raw_data : RawDataReader) : DeviceDispatcher × List Event :=
  let pen := emit_pen_events d cfg raw_data
  let tablet := emit_tablet_events pen.1 raw_data
  (tablet.1, pen.2 ++ tablet.2)

end DeviceDispatcher

/-- Result of one `read_device_responses` call in the driver loop, as matched
in `main.rs`: `Ok(len)`, `Err(rusb::Error::Timeout)`, or any other transport
error. -/
inductive UsbReadResult
  | ok (len : Nat)
  | timeout
  | transportError
  deriving DecidableEq, Repr

/-- Connection state of the driver loop: whether `physical_device` holds a
live link. -/
inductive DriverState
  | connected
  | disconnected
  deriving DecidableEq, Repr

/-- Observable outcome of one driver-loop iteration. -/
structure IterOutcome where
  state : DriverState
  dispatched : Bool
  loggedSynError : Bool
  loggedDisconnect : Bool
  discoveryAttempted : Bool
  deriving DecidableEq, Repr

/-- One iteration of the driver-loop closure in `main.rs`. In the connected
state: a positive read dispatches and flushes, a failed flush is only logged;
a zero-length read and a timeout do nothing; any other transport error logs
the disconnect and clears the link. In the disconnected state discovery is
attempted; on failure the loop sleeps and retries. -/
def driver_iteration (st : DriverState) (read : UsbReadResult)
    (synFails : Bool) (discoverySucceeds : Bool) : IterOutcome :=
  match st with
  | .connected =>
    match read with
    | .ok len =>
      if len > 0 then
        ⟨.connected, true, synFails, false, false⟩
      else
        ⟨.connected, false, false, false, false⟩
    | .timeout => ⟨.connected, false, false, false, false⟩
    | .transportError => ⟨.disconnected, false, false, true, false⟩
  | .disconnected =>
    if discoverySucceeds then ⟨.connected, false, false, false, true⟩
    else ⟨.disconnected, false, false, false, true⟩

end VinsaDriver

/-! Theorems about the claims. -/

namespace VinsaDriver

open DeviceDispatcher

/-- Active-low membership test used throughout the tablet-button logic. -/
lemma and_shift_eq_zero_iff_testBit (n i : Nat) :
    (n &&& (1 <<< i) == 0) = !n.testBit i := by
  simp only [Nat.shiftLeft_eq, one_mul, Nat.and_two_pow]
  rcases h : n.testBit i <;> simp [h, pow_ne_zero]

/-- Claim C2, counterexample: on a buffer too short for the tablet-button offsets
the decode returns `0xCC00`, not the `0xFFFF` the claim states. -/
theorem C2_short_buffer_counterexample :
    RawDataReader.tablet_buttons_as_binary_flags ⟨List.replicate 11 0⟩ = 0xCC00
    ∧ (0xCC00 : Nat) ≠ 0xFFFF := by
  constructor
  · rfl
  · decide

/-- Claim C2 (amended): when the buffer does not cover offsets 11 and 12, the
decode substitutes 0 (not `0xFFFF`) for the two-byte combination before the
sentinel OR, so the result is `0xCC00`; when the buffer covers them the
result is `(buffer[12] << 8 | buffer[11]) | 0xCC00`. -/
theorem C2_tablet_flags_decode (r : RawDataReader) :
    (r.data.length ≤ 12 → r.tablet_buttons_as_binary_flags = 0xCC00)
    ∧ (12 < r.data.length →
        r.tablet_buttons_as_binary_flags
          = ((r.data.getD 12 0 <<< 8) ||| r.data.getD 11 0) ||| 0xCC00) := by
  unfold RawDataReader.tablet_buttons_as_binary_flags
  constructor
  · intro h
    rw [if_pos]
    · rfl
    · simp only [RawDataReader.TABLET_BUTTONS_HIGH,
        RawDataReader.TABLET_BUTTONS_LOW]
      omega
  · intro h
    rw [if_neg]
    · rfl
    · simp only [RawDataReader.TABLET_BUTTONS_HIGH,
        RawDataReader.TABLET_BUTTONS_LOW]
      omega

/-- Claim C2, witness for the amended theorem at concrete buffers. -/
theorem C2_tablet_flags_decode_witness :
    RawDataReader.tablet_buttons_as_binary_flags ⟨[]⟩ = 0xCC00
    ∧ RawDataReader.tablet_buttons_as_binary_flags
        ⟨List.replicate 11 0 ++ [0x12, 0x34] ++ List.replicate 51 0⟩
        = ((0x34 <<< 8) ||| 0x12) ||| 0xCC00 := by
  constructor
  · exact (C2_tablet_flags_decode ⟨[]⟩).1 (by decide)
  · exact (C2_tablet_flags_decode _).2 (by decide)

/-- Claim C3, counterexample: a connected iteration whose end-of-batch flush fails
stays connected; the claim states it transitions to Disconnected. -/
theorem C3_flush_failure_counterexample :
    (driver_iteration .connected (.ok 1) true true).state = .connected
    ∧ DriverState.connected ≠ DriverState.disconnected := by
  exact ⟨rfl, by decide⟩

/-- Claim C3 (amended): in the Connected state a Timeout read keeps the link and
dispatches nothing; any other transport error drops the link (logged), and
the following iteration attempts discovery; a failed end-of-batch flush is
only logged — the link stays Connected. -/
theorem C3_loop_transitions (sf ds : Bool) (len : Nat) :
    ((driver_iteration .connected .timeout sf ds).state = .connected
      ∧ (driver_iteration .connected .timeout sf ds).dispatched = false)
    ∧ ((driver_iteration .connected .transportError sf ds).state
          = .disconnected
      ∧ (driver_iteration .connected .transportError sf ds).loggedDisconnect
          = true
      ∧ ∀ read sf2 ds2,
          (driver_iteration
            (driver_iteration .connected .transportError sf ds).state
            read sf2 ds2).discoveryAttempted = true)
    ∧ ((driver_iteration .connected (.ok (len + 1)) true ds).state
          = .connected
      ∧ (driver_iteration .connected (.ok (len + 1)) true ds).dispatched
          = true
      ∧ (driver_iteration .connected (.ok (len + 1)) true ds).loggedSynError
          = true) := by
  refine ⟨⟨rfl, rfl⟩, ⟨rfl, rfl, ?_⟩, ?_⟩
  · intro read sf2 ds2
    cases ds2 <;> rfl
  · have h : (len + 1 > 0) = True := by simp
    simp [driver_iteration]

/-- Helper: on a nonnegative rational below the i32 ceiling, the saturating
truncating cast is the floor. -/
lemma f32_as_i32_eq_floor (q : ℚ) (h0 : 0 ≤ q) (h1 : q ≤ 2 ^ 31 - 1) :
    f32_as_i32 q = ⌊q⌋ := by
  unfold f32_as_i32
  rw [Int.tdiv_eq_ediv (Rat.num_nonneg.2 h0) (by positivity), ← Rat.floor_def]
  have hf0 : (0 : Int) ≤ ⌊q⌋ := Int.floor_nonneg.2 h0
  have hf1 : ⌊q⌋ ≤ 2 ^ 31 - 1 := by
    have h := Int.floor_le_floor (a := q) (b := ((2 ^ 31 - 1 : Int) : ℚ))
      (by push_cast; linarith)
    rwa [Int.floor_intCast] at h
  rw [min_eq_right hf1, max_eq_right (by omega)]

/-- Helper: the branch of `normalize_pressure` above the threshold. -/
lemma normalize_pressure_above (cfg : AppConfig) (raw : Int)
    (h : (cfg.pressure_threshold : Int) < 2000 - raw) :
    normalize_pressure cfg raw
      = f32_as_i32 (((2000 - raw : Int) : ℚ) * cfg.sensitivity) := by
  simp only [normalize_pressure, RAW_PRESSURE_POINTS]
  rw [if_neg (by omega)]

/-- Helper: the branch of `normalize_pressure` at or below the threshold. -/
lemma normalize_pressure_below (cfg : AppConfig) (raw : Int)
    (h : 2000 - raw ≤ (cfg.pressure_threshold : Int)) :
    normalize_pressure cfg raw = 0 := by
  simp only [normalize_pressure, RAW_PRESSURE_POINTS]
  rw [if_pos h]

/-- Claim C4, counterexample: the float product is cast with a truncating `as i32`,
not rounded; with threshold 0 and sensitivity 0.75 a raw pressure of 999
gives `1001 * 0.75 = 750.75`, emitted as 750 while the claimed rounding
yields 751. -/
theorem C4_truncation_counterexample :
    normalize_pressure ⟨0, 3 / 4⟩ 999 = 750
    ∧ round ((2000 - 999 : ℚ) * (3 / 4)) = 751
    ∧ (750 : Int) ≠ 751 := by
  refine ⟨?_, by norm_num [round_eq], by decide⟩
  rw [normalize_pressure_above ⟨0, 3 / 4⟩ 999 (by norm_num)]
  rw [show (((2000 - 999 : Int) : ℚ) * (⟨0, 3 / 4⟩ : AppConfig).sensitivity)
      = 3003 / 4 by norm_num]
  rw [f32_as_i32_eq_floor _ (by norm_num) (by norm_num)]
  norm_num

/-- Claim C4 (amended): with `v = 2000 - rawPressure`, the emitted pressure is 0
when `v ≤ pressureThreshold` and otherwise is `v * sensitivity` truncated
toward zero (the Rust `as i32` cast), not rounded; no clamping to the 0..8191
axis ceiling is applied: the default config emits 5000 for raw 1000, 0 for
raw 1600, and 10000 (beyond 8191) for raw 0. -/
theorem C4_pressure_curve (cfg : AppConfig) (raw : Int) :
    (2000 - raw ≤ (cfg.pressure_threshold : Int) →
      normalize_pressure cfg raw = 0)
    ∧ ((cfg.pressure_threshold : Int) < 2000 - raw →
      normalize_pressure cfg raw
        = f32_as_i32 (((2000 - raw : Int) : ℚ) * cfg.sensitivity))
    ∧ normalize_pressure ⟨510, 5⟩ 1000 = 5000
    ∧ normalize_pressure ⟨510, 5⟩ 1600 = 0
    ∧ normalize_pressure ⟨510, 5⟩ 0 = 10000
    ∧ (8191 : Int) < 10000 := by
  refine ⟨normalize_pressure_below _ _, normalize_pressure_above _ _, ?_,
    normalize_pressure_below _ _ (by norm_num), ?_, by norm_num⟩
  · rw [normalize_pressure_above _ _ (by norm_num),
      show (((2000 - 1000 : Int) : ℚ) * (⟨510, 5⟩ : AppConfig).sensitivity)
        = ((5000 : Int) : ℚ) by norm_num,
      f32_as_i32_eq_floor _ (by norm_num) (by norm_num), Int.floor_intCast]
  · rw [normalize_pressure_above _ _ (by norm_num),
      show (((2000 - 0 : Int) : ℚ) * (⟨510, 5⟩ : AppConfig).sensitivity)
        = ((10000 : Int) : ℚ) by norm_num,
      f32_as_i32_eq_floor _ (by norm_num) (by norm_num), Int.floor_intCast]

/-- Claim C4, witness for the amended theorem at a concrete config and inputs. -/
theorem C4_pressure_curve_witness :
    normalize_pressure ⟨510, 5⟩ 1700 = 0
    ∧ normalize_pressure ⟨510, 5⟩ 900
        = f32_as_i32 (((2000 - 900 : Int) : ℚ) * (5 : ℚ)) := by
  constructor
  · exact (C4_pressure_curve ⟨510, 5⟩ 1700).1 (by norm_num)
  · exact (C4_pressure_curve ⟨510, 5⟩ 900).2.1 (by norm_num)

/-- Helper: the pen binding table maps only codes 4 and 6. -/
lemma pen_map_cases (i : Nat) (ks : List Key)
    (h : pen_button_id_to_key_code_map i = some ks) :
    (i = 4 ∧ ks = [Key.BTN_STYLUS]) ∨ (i = 6 ∧ ks = [Key.BTN_STYLUS2]) := by
  rcases i with _ | _ | _ | _ | _ | _ | _ | i <;>
    simp_all [pen_button_id_to_key_code_map]

/-- Claim C6: the pen-button decision table. A previous code 2 with current 4 or 6
emits PRESSED on the current code; a previous 4 or 6 with current 2 emits
RELEASED on the previous code; equal codes other than 2 emit HOLD on the
previous code; every other pair emits nothing; and every emitted key event
carries a stylus key, i.e. only codes bound in the pen table emit. -/
theorem C6_pen_button_transitions (d : DeviceDispatcher) (cur : Nat) :
    (d.pen_last_raw_pressed_button = 2 → (cur = 4 ∨ cur = 6) →
      raw_pen_buttons_to_pen_key_events d cur = pen_combo_events cur PRESSED)
    ∧ ((d.pen_last_raw_pressed_button = 4 ∨ d.pen_last_raw_pressed_button = 6) →
        cur = 2 →
      raw_pen_buttons_to_pen_key_events d cur
        = pen_combo_events d.pen_last_raw_pressed_button RELEASED)
    ∧ (d.pen_last_raw_pressed_button ≠ 2 →
        d.pen_last_raw_pressed_button = cur →
      raw_pen_buttons_to_pen_key_events d cur
        = pen_combo_events d.pen_last_raw_pressed_button HOLD)
    ∧ (¬(d.pen_last_raw_pressed_button = 2 ∧ (cur = 4 ∨ cur = 6)) →
       ¬((d.pen_last_raw_pressed_button = 4 ∨
           d.pen_last_raw_pressed_button = 6) ∧ cur = 2) →
       ¬(d.pen_last_raw_pressed_button ≠ 2 ∧
           d.pen_last_raw_pressed_button = cur) →
      raw_pen_buttons_to_pen_key_events d cur = [])
    ∧ (∀ k s, Event.key k s ∈ raw_pen_buttons_to_pen_key_events d cur →
        k = Key.BTN_STYLUS ∨ k = Key.BTN_STYLUS2) := by
  obtain ⟨tl, pl, ml, wt, lx, ly, mw⟩ := d
  refine ⟨?_, ?_, ?_, ?_, ?_⟩
  · intro h1 h2
    have hp : pl = 2 := h1
    subst hp
    rcases h2 with rfl | rfl <;> rfl
  · intro h1 h2
    subst h2
    rcases h1 with hp | hp <;> (have hp' : pl = _ := hp; subst hp') <;> rfl
  · intro h1 h2
    have h1' : pl ≠ 2 := h1
    have h2' : pl = cur := h2
    subst h2'
    simp only [raw_pen_buttons_to_pen_key_events]
    rw [if_neg (by tauto), if_neg (by tauto), if_pos (by tauto)]
    rfl
  · intro h1 h2 h3
    have h1' : ¬(pl = 2 ∧ (cur = 4 ∨ cur = 6)) := h1
    have h2' : ¬((pl = 4 ∨ pl = 6) ∧ cur = 2) := h2
    have h3' : ¬(pl ≠ 2 ∧ pl = cur) := h3
    simp only [raw_pen_buttons_to_pen_key_events]
    rw [if_neg (by tauto), if_neg (by tauto), if_neg (by tauto)]
  · intro k s
    simp only [raw_pen_buttons_to_pen_key_events]
    split_ifs with h1 h2 h3 <;> intro hmem
    · rcases h1 with ⟨hp, hc | hc⟩ <;>
        simp_all [pen_button_id_to_key_code_map]
    · rcases h2 with ⟨hp | hp, hc⟩ <;>
        simp_all [pen_button_id_to_key_code_map]
    · rcases hk : pen_button_id_to_key_code_map pl with _ | ks
      · simp [hk] at hmem
      · rcases pen_map_cases pl ks hk with ⟨hp, hks⟩ | ⟨hp, hks⟩ <;>
          simp_all
    · simp at hmem

/-- Claim C6, witness: concrete transitions using the pen table. -/
theorem C6_pen_button_transitions_witness :
    raw_pen_buttons_to_pen_key_events
        { DeviceDispatcher.new with pen_last_raw_pressed_button := 2 } 4
      = pen_combo_events 4 PRESSED
    ∧ raw_pen_buttons_to_pen_key_events
        { DeviceDispatcher.new with pen_last_raw_pressed_button := 6 } 2
      = pen_combo_events 6 RELEASED
    ∧ raw_pen_buttons_to_pen_key_events
        { DeviceDispatcher.new with pen_last_raw_pressed_button := 4 } 4
      = pen_combo_events 4 HOLD
    ∧ raw_pen_buttons_to_pen_key_events
        { DeviceDispatcher.new with pen_last_raw_pressed_button := 4 } 6
      = [] := by
  refine ⟨?_, ?_, ?_, ?_⟩
  · exact (C6_pen_button_transitions _ 4).1 rfl (Or.inl rfl)
  · exact (C6_pen_button_transitions _ 2).2.1 (Or.inr rfl) rfl
  · exact (C6_pen_button_transitions _ 4).2.2.1 (by decide) rfl
  · exact (C6_pen_button_transitions _ 6).2.2.2.1 (by decide) (by decide)
      (by decide)

/-- Claim C8: in the normal (non-strip) emission path the ABS_Y value is the input
Y clamped to `[0, 4095]` — so every emitted Y lies in that interval — while
the ABS_X value is the input X passed through unclamped; and composed through
`emit_pen_events` the emitted ABS_X value is exactly the truncated smoothed
X. -/
theorem C8_y_clamped_x_unclamped (x y pressure : Int) (d : DeviceDispatcher)
    (cfg : AppConfig) (r : RawDataReader) :
    (Event.abs .ABS_X x ∈ raw_pen_abs_to_pen_abs_events x y pressure false)
    ∧ (∀ v, Event.abs .ABS_Y v ∈ raw_pen_abs_to_pen_abs_events x y pressure false →
        0 ≤ v ∧ v ≤ 4095)
    ∧ (Event.abs .ABS_Y (max 0 (min 4095 y))
        ∈ raw_pen_abs_to_pen_abs_events x y pressure false)
    ∧ (0 ≤ r.y_axis →
        Event.abs .ABS_X ((smooth_coordinates d r.x_axis r.y_axis).2.1)
          ∈ (emit_pen_events d cfg r).2) := by
  obtain ⟨tl, pl, ml, wt, lx, ly, mw⟩ := d
  refine ⟨?_, ?_, ?_, ?_⟩
  · simp [raw_pen_abs_to_pen_abs_events]
  · intro v hv
    have hvy : v = max 0 (min 4095 y) := by
      simp [raw_pen_abs_to_pen_abs_events, MAX_Y] at hv
      exact hv
    subst hvy
    exact ⟨le_max_left 0 _, max_le (by norm_num) (min_le_left 4095 y)⟩
  · simp [raw_pen_abs_to_pen_abs_events, MAX_Y]
  · intro h
    have hmm : decide (r.y_axis < 0) = false := by
      simpa using not_lt.mpr h
    simp only [emit_pen_events, smooth_coordinates, hmm,
      raw_pen_abs_to_pen_abs_events, if_neg Bool.false_ne_true]
    simp [smooth_coordinates]

/-- Claim C8, witness: concrete out-of-range inputs — the unclamped X 9999
is emitted as is, the Y value -7 is clamped into range, and the composed
emission on the fresh zero report carries the truncated smoothed X. -/
theorem C8_y_clamped_x_unclamped_witness :
    Event.abs .ABS_X 9999
      ∈ raw_pen_abs_to_pen_abs_events 9999 (-7) 3 false
    ∧ (0 ≤ max 0 (min 4095 (-7 : Int)) ∧ max 0 (min 4095 (-7 : Int)) ≤ 4095)
    ∧ Event.abs .ABS_X
        ((smooth_coordinates DeviceDispatcher.new RawDataReader.new.x_axis
          RawDataReader.new.y_axis).2.1)
        ∈ (emit_pen_events DeviceDispatcher.new AppConfig.default
            RawDataReader.new).2 := by
  refine ⟨?_, ?_, ?_⟩
  · exact (C8_y_clamped_x_unclamped 9999 (-7) 3 DeviceDispatcher.new
      AppConfig.default RawDataReader.new).1
  · exact (C8_y_clamped_x_unclamped 9999 (-7) 3 DeviceDispatcher.new
      AppConfig.default RawDataReader.new).2.1 _
      (C8_y_clamped_x_unclamped 9999 (-7) 3 DeviceDispatcher.new
        AppConfig.default RawDataReader.new).2.2.1
  · exact (C8_y_clamped_x_unclamped 9999 (-7) 3 DeviceDispatcher.new
      AppConfig.default RawDataReader.new).2.2.2 (by decide)

/-- Helper: every media binding with id at most 9 exists and is nonempty. -/
lemma media_map_bound_le_nine (n : Nat) (h : n ≤ 9) :
    ∃ ks, media_button_id_to_key_code_map n = some ks ∧ ks ≠ [] := by
  interval_cases n <;> simp [media_button_id_to_key_code_map]

/-- Claim C1, counterexample: from the initial state, a press inside the strip at
x = 4095 latches media column 10 — not column 9, as the claim states — and
column 10 is unbound, so no combo press is emitted. -/
theorem C1_last_column_counterexample :
    (pen_emit_touch DeviceDispatcher.new 4095 true 1).1.last_pressed_media_button
      = 10
    ∧ (10 : Nat) ≠ 9
    ∧ (pen_emit_touch DeviceDispatcher.new 4095 true 1).2 = []
    ∧ media_button_id_to_key_code_map 10 = none := by
  exact ⟨rfl, by decide, rfl, rfl⟩

/-- Claim C1 (amended): the media-button width is `4095 / 10 = 409` in integer
arithmetic, so a press inside the strip latches column `x / 409` (truncating
division, cast to u8) and presses that column's combo when one is bound;
columns 0–9 cover `x ≤ 4089`, while `x = 4095` falls in column 10, which has
no binding. On any touching→not-touching transition the latched combo (when
bound) is emitted RELEASED, inside or outside the strip, and the latch is
unchanged. -/
theorem C1_media_strip_latch (d : DeviceDispatcher) (x np : Int)
    (hw : d.media_button_width = 409) :
    (d.was_touching = false → 0 < np →
      ((pen_emit_touch d x true np).1.last_pressed_media_button
          = i32_as_u8 (Int.tdiv x 409)
        ∧ (∀ keys,
            media_button_id_to_key_code_map (i32_as_u8 (Int.tdiv x 409))
              = some keys →
            (pen_emit_touch d x true np).2
              = keys.map (fun k => Event.key k PRESSED))
        ∧ (0 ≤ x → x ≤ 4089 → (pen_emit_touch d x true np).2 ≠ [])))
    ∧ (d.was_touching = true → np ≤ 0 → ∀ (mm : Bool) (keys : List Key),
        media_button_id_to_key_code_map d.last_pressed_media_button
          = some keys →
        (pen_emit_touch d x mm np).2
          = keys.map (fun k => Event.key k RELEASED)
            ++ (if mm then [] else [Event.key .BTN_TOUCH RELEASED])
        ∧ (pen_emit_touch d x mm np).1.last_pressed_media_button
            = d.last_pressed_media_button) := by
  obtain ⟨tl, pl, ml, wt, lx, ly, mw⟩ := d
  have hw' : mw = 409 := hw
  subst hw'
  constructor
  · intro hwt hnp
    have hwt' : wt = false := hwt
    subst hwt'
    have hd : decide (np > 0) = true := decide_eq_true hnp
    refine ⟨?_, ?_, ?_⟩
    · simp [pen_emit_touch, hd, PRESSED]
    · intro keys hk
      simp [pen_emit_touch, hd, PRESSED, hk]
    · intro hx0 hx1
      have hcol : i32_as_u8 (Int.tdiv x 409) ≤ 9 := by
        rw [Int.tdiv_eq_ediv hx0 (by norm_num)]
        unfold i32_as_u8
        omega
      obtain ⟨ks, hks, hne⟩ := media_map_bound_le_nine _ hcol
      simp [pen_emit_touch, hd, PRESSED, hks, hne]
  · intro hwt hnp mm keys hk
    have hwt' : wt = true := hwt
    subst hwt'
    have hd : decide (np > 0) = false := decide_eq_false (by omega)
    have hk' : media_button_id_to_key_code_map ml = some keys := hk
    cases mm <;>
      simp [pen_emit_touch, hd, PRESSED, RELEASED, hk']

/-- Claim C1, witness: a press at x = 3000 latches column 7 and presses KEY_HOME;
a release outside the strip with latch 3 emits KEY_PLAYER released followed
by the BTN_TOUCH release. -/
theorem C1_media_strip_latch_witness :
    (pen_emit_touch DeviceDispatcher.new 3000 true 5).1.last_pressed_media_button
      = i32_as_u8 (Int.tdiv 3000 409)
    ∧ (pen_emit_touch DeviceDispatcher.new 3000 true 5).2
      = [Event.key .KEY_HOME PRESSED]
    ∧ (pen_emit_touch
        { DeviceDispatcher.new with
          was_touching := true
          last_pressed_media_button := 3 } 77 false 0).2
      = [Event.key .KEY_PLAYER RELEASED, Event.key .BTN_TOUCH RELEASED] := by
  refine ⟨?_, ?_, ?_⟩
  · exact ((C1_media_strip_latch DeviceDispatcher.new 3000 5 rfl).1 rfl
      (by norm_num)).1
  · exact ((C1_media_strip_latch DeviceDispatcher.new 3000 5 rfl).1 rfl
      (by norm_num)).2.1 [Key.KEY_HOME] rfl
  · exact ((C1_media_strip_latch
      { DeviceDispatcher.new with
        was_touching := true
        last_pressed_media_button := 3 } 77 0 rfl).2 rfl (by norm_num) false
      [Key.KEY_PLAYER] rfl).1

/-- Claim C10: on a touch edge outside the strip — the press edge included — the
dispatcher first emits RELEASED for every key of the latched media combo on
the media keyboard and then the BTN_TOUCH edge on the pen; the latch starts
at index 0, bound to KEY_MUTE, so the first press after startup emits a
release of media button 0's combo. -/
theorem C10_outside_strip_media_release (d : DeviceDispatcher) (x np : Int)
    (keys : List Key)
    (hk : media_button_id_to_key_code_map d.last_pressed_media_button
      = some keys) :
    (d.was_touching = false → 0 < np →
      (pen_emit_touch d x false np).2
        = keys.map (fun k => Event.key k RELEASED)
          ++ [Event.key .BTN_TOUCH PRESSED])
    ∧ (d.was_touching = true → np ≤ 0 →
      (pen_emit_touch d x false np).2
        = keys.map (fun k => Event.key k RELEASED)
          ++ [Event.key .BTN_TOUCH RELEASED])
    ∧ DeviceDispatcher.new.last_pressed_media_button = 0
    ∧ media_button_id_to_key_code_map 0 = some [Key.KEY_MUTE] := by
  obtain ⟨tl, pl, ml, wt, lx, ly, mw⟩ := d
  have hk' : media_button_id_to_key_code_map ml = some keys := hk
  refine ⟨?_, ?_, rfl, rfl⟩
  · intro hwt hnp
    have hwt' : wt = false := hwt
    subst hwt'
    have hd : decide (np > 0) = true := decide_eq_true hnp
    simp [pen_emit_touch, hd, PRESSED, hk']
  · intro hwt hnp
    have hwt' : wt = true := hwt
    subst hwt'
    have hd : decide (np > 0) = false := decide_eq_false (by omega)
    simp [pen_emit_touch, hd, RELEASED, hk']

/-- Claim C10, witness: the very first touch press after startup. -/
theorem C10_outside_strip_media_release_witness :
    (pen_emit_touch DeviceDispatcher.new 100 false 5).2
      = [Event.key .KEY_MUTE RELEASED, Event.key .BTN_TOUCH PRESSED] := by
  exact (C10_outside_strip_media_release DeviceDispatcher.new 100 5
    [Key.KEY_MUTE] rfl).1 rfl (by norm_num)

/-- Helper: no media binding contains the tool-presence key. -/
lemma media_map_no_tool_pen (i : Nat) (ks : List Key)
    (h : media_button_id_to_key_code_map i = some ks) :
    Key.BTN_TOOL_PEN ∉ ks := by
  rcases i with _ | _ | _ | _ | _ | _ | _ | _ | _ | _ | i <;> first
  | (injection h with h2; subst h2; decide)
  | injection h

/-- Helper: a member of a media combo emission is a key event on a media key,
hence neither an absolute-axis event nor the tool-presence key. -/
lemma mem_media_keys_shape (i : Nat) (ks : List Key) (st : Int) (e : Event)
    (hm : media_button_id_to_key_code_map i = some ks)
    (he : e ∈ ks.map (fun k => Event.key k st)) :
    (∀ a v, e ≠ Event.abs a v) ∧ (∀ s, e ≠ Event.key Key.BTN_TOOL_PEN s) := by
  simp only [List.mem_map] at he
  obtain ⟨k, hk, rfl⟩ := he
  have hno := media_map_no_tool_pen i ks hm
  refine ⟨fun a v h => (by cases h), fun s h => ?_⟩
  injection h with h1 h2
  subst h1
  exact hno hk

/-- Helper: events from the pen-button translation are stylus key events. -/
lemma raw_pen_buttons_events_shape (d : DeviceDispatcher) (cur : Nat) :
    ∀ e ∈ raw_pen_buttons_to_pen_key_events d cur,
      ∃ s, e = Event.key Key.BTN_STYLUS s ∨ e = Event.key Key.BTN_STYLUS2 s := by
  obtain ⟨tl, pl, ml, wt, lx, ly, mw⟩ := d
  intro e he
  simp only [raw_pen_buttons_to_pen_key_events] at he
  split_ifs at he with h1 h2 h3
  · obtain ⟨hp, hc | hc⟩ := h1 <;> subst hc <;>
      simp [pen_button_id_to_key_code_map] at he <;> subst he
    · exact ⟨PRESSED, Or.inr rfl⟩
    · exact ⟨PRESSED, Or.inl rfl⟩
  · obtain ⟨hp | hp, hc⟩ := h2 <;>
      (have hp' : pl = _ := hp; subst hp') <;>
      simp [pen_button_id_to_key_code_map] at he <;> subst he
    · exact ⟨RELEASED, Or.inr rfl⟩
    · exact ⟨RELEASED, Or.inl rfl⟩
  · have he2 : e ∈ (match pen_button_id_to_key_code_map pl with
        | none => ([] : List Event)
        | some keys => keys.map (fun k => Event.key k HOLD)) := he
    rcases hm : pen_button_id_to_key_code_map pl with _ | ks <;> rw [hm] at he2
    · simp at he2
    · rcases pen_map_cases pl ks hm with ⟨hp, rfl⟩ | ⟨hp, rfl⟩ <;>
        simp at he2 <;> subst he2
      · exact ⟨HOLD, Or.inl rfl⟩
      · exact ⟨HOLD, Or.inr rfl⟩
  · simp at he

/-- Helper: events from the touch/media edge handler are key events on media
keys or BTN_TOUCH — never absolute-axis events, never BTN_TOOL_PEN. -/
lemma pen_emit_touch_events_shape (d : DeviceDispatcher) (x np : Int)
    (mm : Bool) :
    ∀ e ∈ (pen_emit_touch d x mm np).2,
      (∀ a v, e ≠ Event.abs a v) ∧ (∀ s, e ≠ Event.key Key.BTN_TOOL_PEN s) := by
  intro e he
  simp only [pen_emit_touch] at he
  split at he
  · simp at he
  · split at he
    · -- inside the strip
      split at he
      · -- press edge: freshly latched column
        rcases hm : media_button_id_to_key_code_map
            (i32_as_u8 (Int.tdiv x d.media_button_width)) with _ | ks <;>
          rw [hm] at he
        · simp at he
        · exact mem_media_keys_shape _ ks _ e hm (by simpa using he)
      · -- release edge: previously latched column
        rcases hm : media_button_id_to_key_code_map
            d.last_pressed_media_button with _ | ks <;> rw [hm] at he
        · simp at he
        · exact mem_media_keys_shape _ ks _ e hm (by simpa using he)
    · -- outside the strip
      simp only [List.mem_append] at he
      rcases he with he | he
      · rcases hm : media_button_id_to_key_code_map
            d.last_pressed_media_button with _ | ks <;> rw [hm] at he
        · simp at he
        · exact mem_media_keys_shape _ ks _ e hm (by simpa using he)
      · simp only [List.mem_singleton] at he
        subst he
        exact ⟨fun a v h => (by cases h), fun s h => (by cases h)⟩

/-- Claim C7: a sample with negative raw Y (the multimedia strip) emits no
absolute-axis event and no tool-present key at all, while a sample with
nonnegative raw Y takes the ordinary absolute X/Y/pressure emission path
(the four-event block of `raw_pen_abs_to_pen_abs_events` on the smoothed
coordinates and normalized pressure). -/
theorem C7_multimedia_gates_abs_path (d : DeviceDispatcher) (cfg : AppConfig)
    (r : RawDataReader) :
    (r.y_axis < 0 →
      (∀ a v, Event.abs a v ∉ (emit_pen_events d cfg r).2)
      ∧ (∀ s, Event.key Key.BTN_TOOL_PEN s ∉ (emit_pen_events d cfg r).2))
    ∧ (0 ≤ r.y_axis →
      (emit_pen_events d cfg r).2
        = raw_pen_buttons_to_pen_key_events d r.pen_buttons
          ++ raw_pen_abs_to_pen_abs_events
              ((smooth_coordinates
                { d with pen_last_raw_pressed_button := r.pen_buttons }
                r.x_axis r.y_axis).2.1)
              ((smooth_coordinates
                { d with pen_last_raw_pressed_button := r.pen_buttons }
                r.x_axis r.y_axis).2.2)
              (normalize_pressure cfg r.pressure) false
          ++ (pen_emit_touch
              (smooth_coordinates
                { d with pen_last_raw_pressed_button := r.pen_buttons }
                r.x_axis r.y_axis).1
              ((smooth_coordinates
                { d with pen_last_raw_pressed_button := r.pen_buttons }
                r.x_axis r.y_axis).2.1)
              false (normalize_pressure cfg r.pressure)).2) := by
  constructor
  · intro hy
    have hmm : decide (r.y_axis < 0) = true := decide_eq_true hy
    have hsplit : (emit_pen_events d cfg r).2
        = raw_pen_buttons_to_pen_key_events d r.pen_buttons
          ++ (pen_emit_touch
              (smooth_coordinates
                { d with pen_last_raw_pressed_button := r.pen_buttons }
                r.x_axis r.y_axis).1
              ((smooth_coordinates
                { d with pen_last_raw_pressed_button := r.pen_buttons }
                r.x_axis r.y_axis).2.1)
              true (normalize_pressure cfg r.pressure)).2 := by
      simp [emit_pen_events, hmm, raw_pen_abs_to_pen_abs_events]
    rw [hsplit]
    constructor
    · intro a v hv
      rcases List.mem_append.1 hv with h | h
      · obtain ⟨s, hs | hs⟩ :=
          raw_pen_buttons_events_shape d r.pen_buttons _ h <;> simp at hs
      · exact (pen_emit_touch_events_shape _ _ _ _ _ h).1 a v rfl
    · intro s hv
      rcases List.mem_append.1 hv with h | h
      · obtain ⟨s2, hs | hs⟩ :=
          raw_pen_buttons_events_shape d r.pen_buttons _ h <;> simp at hs
      · exact (pen_emit_touch_events_shape _ _ _ _ _ h).2 s rfl
  · intro hy
    have hmm : decide (r.y_axis < 0) = false := by
      simpa using not_lt.mpr hy
    simp only [emit_pen_events, hmm]

theorem C7_multimedia_gates_abs_path_witness :
    (Event.abs .ABS_X 7
      ∉ (emit_pen_events DeviceDispatcher.new AppConfig.default
          ⟨[0, 0, 0, 0x80] ++ List.replicate 60 0⟩).2)
    ∧ (∃ tail,
      (emit_pen_events DeviceDispatcher.new AppConfig.default
          RawDataReader.new).2
        = raw_pen_buttons_to_pen_key_events DeviceDispatcher.new
            RawDataReader.new.pen_buttons
          ++ raw_pen_abs_to_pen_abs_events
              ((smooth_coordinates
                { DeviceDispatcher.new with
                  pen_last_raw_pressed_button := RawDataReader.new.pen_buttons }
                RawDataReader.new.x_axis RawDataReader.new.y_axis).2.1)
              ((smooth_coordinates
                { DeviceDispatcher.new with
                  pen_last_raw_pressed_button := RawDataReader.new.pen_buttons }
                RawDataReader.new.x_axis RawDataReader.new.y_axis).2.2)
              (normalize_pressure AppConfig.default RawDataReader.new.pressure)
              false
          ++ tail) := by
  constructor
  · exact ((C7_multimedia_gates_abs_path DeviceDispatcher.new
      AppConfig.default ⟨[0, 0, 0, 0x80] ++ List.replicate 60 0⟩).1
      (by decide)).1 .ABS_X 7
  · exact ⟨_, (C7_multimedia_gates_abs_path DeviceDispatcher.new
      AppConfig.default RawDataReader.new).2 (by decide)⟩

/-- Helper: the tablet binding table only binds ids below 14, never 10
or 11. -/
lemma tablet_map_bound (i : Nat) (ks : List Key)
    (h : tablet_button_id_to_key_code_map i = some ks) :
    i < 14 ∧ i ≠ 10 ∧ i ≠ 11 := by
  rcases i with _ | _ | _ | _ | _ | _ | _ | _ | _ | _ | _ | _ | _ | _ | i <;>
    simp_all [tablet_button_id_to_key_code_map]

/-- Claim C5: per-id tablet transition table on the active-low masks — a stored
mask bit 1 (released) with current bit 0 (pressed) emits PRESSED, pressed to
released emits RELEASED, pressed to pressed emits HOLD, released to released
emits nothing; an id absent from the binding table emits nothing; every
emission is the bound combo followed by the end-of-batch flush; and any bound
id fed the mask sequence [all-released, id-pressed, id-pressed, all-released]
from the initial state yields exactly PRESSED, HOLD, RELEASED, each flushed. -/
theorem C5_tablet_button_transitions :
    (∀ (d : DeviceDispatcher) (i flags : Nat),
      (d.tablet_last_raw_pressed_buttons.testBit i = true →
        flags.testBit i = false →
        emit_tablet_key_event d i flags = tablet_combo_events i PRESSED)
      ∧ (d.tablet_last_raw_pressed_buttons.testBit i = false →
          flags.testBit i = true →
        emit_tablet_key_event d i flags = tablet_combo_events i RELEASED)
      ∧ (d.tablet_last_raw_pressed_buttons.testBit i = false →
          flags.testBit i = false →
        emit_tablet_key_event d i flags = tablet_combo_events i HOLD)
      ∧ (d.tablet_last_raw_pressed_buttons.testBit i = true →
          flags.testBit i = true →
        emit_tablet_key_event d i flags = []))
    ∧ (∀ (d : DeviceDispatcher) (i flags : Nat),
        tablet_button_id_to_key_code_map i = none →
        emit_tablet_key_event d i flags = [])
    ∧ (∀ (id : Nat) (keys : List Key),
        tablet_button_id_to_key_code_map id = some keys →
        (run_tablet_masks DeviceDispatcher.new
          [0xFFFF, 0xFFFF ^^^ (1 <<< id), 0xFFFF ^^^ (1 <<< id), 0xFFFF]).2
          = (keys.map (fun k => Event.key k PRESSED) ++ [Event.syn])
            ++ ((keys.map (fun k => Event.key k HOLD) ++ [Event.syn])
            ++ ((keys.map (fun k => Event.key k RELEASED) ++ [Event.syn])
            ++ []))) := by
  refine ⟨?_, ?_, ?_⟩
  · intro d i flags
    refine ⟨?_, ?_, ?_, ?_⟩ <;> intro h1 h2 <;>
      simp only [emit_tablet_key_event, and_shift_eq_zero_iff_testBit,
        h1, h2, Bool.not_true, Bool.not_false] <;> rfl
  · intro d i flags h
    simp only [emit_tablet_key_event, h]
    split <;> rfl
  · intro id keys hk
    obtain ⟨hlt, h10, h11⟩ := tablet_map_bound id keys hk
    interval_cases id <;> simp_all [tablet_button_id_to_key_code_map] <;>
      (subst hk; rfl)

/-- Claim C5, witness: concrete transition evaluations and the full sequence for
the bound id 0. -/
theorem C5_tablet_button_transitions_witness :
    emit_tablet_key_event DeviceDispatcher.new 0 0xFFFE
      = tablet_combo_events 0 PRESSED
    ∧ emit_tablet_key_event DeviceDispatcher.new 5 0xFFFF = []
    ∧ emit_tablet_key_event
        { DeviceDispatcher.new with tablet_last_raw_pressed_buttons := 0 }
        10 0xFFFF = []
    ∧ (run_tablet_masks DeviceDispatcher.new
        [0xFFFF, 0xFFFF ^^^ (1 <<< 0), 0xFFFF ^^^ (1 <<< 0), 0xFFFF]).2
      = (([Key.KEY_TAB].map (fun k => Event.key k PRESSED) ++ [Event.syn])
        ++ (([Key.KEY_TAB].map (fun k => Event.key k HOLD) ++ [Event.syn])
        ++ (([Key.KEY_TAB].map (fun k => Event.key k RELEASED) ++ [Event.syn])
        ++ []))) := by
  refine ⟨?_, ?_, ?_, ?_⟩
  · exact ((C5_tablet_button_transitions.1 DeviceDispatcher.new 0 0xFFFE).1
      (by decide) (by decide))
  · exact ((C5_tablet_button_transitions.1 DeviceDispatcher.new 5 0xFFFF).2.2.2
      (by decide) (by decide))
  · exact (C5_tablet_button_transitions.2.1 _ 10 0xFFFF rfl)
  · exact (C5_tablet_button_transitions.2.2 0 [Key.KEY_TAB] rfl)

/-- Helper: the squared distance to the target is nonnegative. -/
lemma dist_sq_to_nonneg (x y : Int) (d : DeviceDispatcher) :
    0 ≤ dist_sq_to x y d := by
  unfold dist_sq_to
  positivity

/-- Helper: one smoothing step contracts the squared distance by at least
the worst-case factor `(1 - 0.3)² = 49/100`, whichever gain bucket the step
falls in. -/
lemma smooth_step_contracts (x y : Int) (d : DeviceDispatcher) :
    dist_sq_to x y (smooth_step x y d)
      ≤ 49 / 100 * dist_sq_to x y d := by
  unfold smooth_step smooth_coordinates dist_sq_to
  simp only
  split_ifs <;>
    nlinarith [sq_nonneg ((x : ℚ) - d.last_x), sq_nonneg ((y : ℚ) - d.last_y)]

/-- Helper: iterated smoothing contracts geometrically. -/
lemma smooth_iter_contracts (x y : Int) (d : DeviceDispatcher) (n : Nat) :
    dist_sq_to x y (smooth_iter x y d n)
      ≤ (49 / 100 : ℚ) ^ n * dist_sq_to x y d := by
  induction n generalizing d with
  | zero => simp [smooth_iter]
  | succ n ih =>
    calc dist_sq_to x y (smooth_iter x y d (n + 1))
        = dist_sq_to x y (smooth_iter x y (smooth_step x y d) n) := rfl
      _ ≤ (49 / 100 : ℚ) ^ n * dist_sq_to x y (smooth_step x y d) := ih _
      _ ≤ (49 / 100 : ℚ) ^ n * (49 / 100 * dist_sq_to x y d) :=
          mul_le_mul_of_nonneg_left (smooth_step_contracts x y d)
            (by positivity)
      _ = (49 / 100 : ℚ) ^ (n + 1) * dist_sq_to x y d := by ring

/-- Claim C9: feeding the same raw target repeatedly drives the smoothed position
to within 1 unit of the target (squared distance at most 1) from any starting
state, whichever gain bucket each step falls in, and it stays there. -/
theorem C9_smoothing_converges (x y : Int) (d : DeviceDispatcher) :
    ∃ N, ∀ n, N ≤ n → dist_sq_to x y (smooth_iter x y d n) ≤ 1 := by
  by_cases hD : dist_sq_to x y d ≤ 1
  · refine ⟨0, fun n _ => ?_⟩
    calc dist_sq_to x y (smooth_iter x y d n)
        ≤ (49 / 100 : ℚ) ^ n * dist_sq_to x y d := smooth_iter_contracts x y d n
      _ ≤ 1 * 1 := by
          have h1 : ((49 : ℚ) / 100) ^ n ≤ 1 :=
            pow_le_one₀ (by norm_num) (by norm_num)
          have h0 := dist_sq_to_nonneg x y d
          nlinarith
      _ = 1 := one_mul 1
  · push_neg at hD
    have hDpos : 0 < dist_sq_to x y d := lt_trans one_pos hD
    obtain ⟨N, hN⟩ := exists_pow_lt_of_lt_one
      (show (0 : ℚ) < (dist_sq_to x y d)⁻¹ by positivity)
      (show (49 : ℚ) / 100 < 1 by norm_num)
    refine ⟨N, fun n hn => ?_⟩
    have h1 := smooth_iter_contracts x y d n
    have h2 : ((49 : ℚ) / 100) ^ n ≤ ((49 : ℚ) / 100) ^ N :=
      pow_le_pow_of_le_one (by norm_num) (by norm_num) hn
    have h3 : ((49 : ℚ) / 100) ^ N * dist_sq_to x y d
        < (dist_sq_to x y d)⁻¹ * dist_sq_to x y d :=
      mul_lt_mul_of_pos_right hN hDpos
    have h4 : (dist_sq_to x y d)⁻¹ * dist_sq_to x y d = 1 :=
      inv_mul_cancel₀ (ne_of_gt hDpos)
    have h5 : ((49 : ℚ) / 100) ^ n * dist_sq_to x y d
        ≤ ((49 : ℚ) / 100) ^ N * dist_sq_to x y d :=
      mul_le_mul_of_nonneg_right h2 (le_of_lt hDpos)
    linarith

/-- Claim C9, witness: a concrete instance of the convergence theorem. -/
theorem C9_smoothing_converges_witness :
    ∃ N, ∀ n, N ≤ n →
      dist_sq_to 4095 0 (smooth_iter 4095 0 DeviceDispatcher.new n) ≤ 1 :=
  C9_smoothing_converges 4095 0 DeviceDispatcher.new

end VinsaDriver
